import Mathlib

/-!
Shallow embedding of the booking-lifecycle and check-in core of the Hotel
property-management backend (apps booking/ and checkin/, with guest/ and the
external rooms/ and rate/ collaborators), together with theorems settling the
frozen claims about its specification.

Conventions of the embedding:
* calendar dates are day indices (Nat), datetimes are minutes since an epoch
  (Nat), with the date component of a datetime obtained by dividing by 1440;
* monetary amounts (Django DecimalField values) are fixed-point integers (ℤ),
  never floating point; the payment percentage, the one truly fractional
  derived value, lives in ℚ;
* Django querysets over stored rows are lists, chained filters are predicate
  conjunctions, and raising ValidationError is returning an error value;
* Python truthiness of a Decimal is being nonzero, of a nullable reference is
  being present.
-/

namespace Hotel

/-- Reservation status values, from Booking.STATUS_CHOICES in booking/models.py. -/
inductive BStatus
| confirmed
| checkedIn
| checkedOut
| canceled
| noShow
| pending
deriving DecidableEq

/-- Room status values used by the lifecycle code (AVAILABLE, OCCUPIED, RESERVED, MAINTENANCE). -/
inductive RStatus
| available
| occupied
| reserved
| maintenance
deriving DecidableEq

/-- Room-type snapshot from the external rooms app: nullable capacity and
nullable price per night (both read through Python truthiness by the core). -/
structure RoomType where
  capacity : Option Nat
  price_per_night : Option ℤ
deriving DecidableEq

/-- Room snapshot as read and written by the booking and check-in code:
identity, display number, status, optional room type, and the room's own
default rate. -/
structure Room where
  id : Nat
  room_number : Nat
  status : RStatus
  room_type : Option RoomType
  rate_default : ℤ
deriving DecidableEq

/-- Booking row, restricted to the fields the availability, pricing and
lifecycle code reads or writes (booking/models.py). Dates are day indices;
actual check-in/check-out times are minute timestamps, set only by real
transitions. -/
structure Booking where
  pk : Nat
  guest : Nat
  room : Nat
  check_in_date : Nat
  check_out_date : Nat
  number_of_adults : Nat
  number_of_children : Nat
  status : BStatus
  total_amount : ℤ
  advance_payment : ℤ
  actual_check_in_time : Option Nat
  actual_check_out_time : Option Nat
deriving DecidableEq

/-- Booking.duration_nights: whole-day difference between checkout and checkin
(an integer, negative when the dates are out of order). -/
def duration_nights (check_in_date check_out_date : Nat) : ℤ :=
  (check_out_date : ℤ) - (check_in_date : ℤ)

/-- Availability conflict query from BookingForm.clean (booking/forms.py
lines 153-162): bookings on the given room whose status is CONFIRMED or
CHECKED_IN and whose half-open date interval overlaps the queried one
(check_in_date strictly before the queried checkout and check_out_date
strictly after the queried checkin), with the booking being edited excluded
when an instance pk is present. -/
def findConflicts (bookings : List Booking) (room : Nat)
    (check_in_date check_out_date : Nat) (exclude : Option Nat) : List Booking :=
  let base := bookings.filter (fun b =>
    b.room == room &&
    (b.status == BStatus.confirmed || b.status == BStatus.checkedIn) &&
    decide (b.check_in_date < check_out_date) &&
    decide (b.check_out_date > check_in_date))
  match exclude with
  | some pk => base.filter (fun b => b.pk != pk)
  | none => base

/-- Guard can_check_in from booking/models.py: status CONFIRMED or PENDING. -/
def canCheckIn (b : Booking) : Bool :=
  b.status == BStatus.confirmed || b.status == BStatus.pending

/-- Guard can_check_out from booking/models.py: status CHECKED_IN. -/
def canCheckOut (b : Booking) : Bool :=
  b.status == BStatus.checkedIn

/-- Guard can_cancel from booking/models.py: status CONFIRMED or PENDING. -/
def canCancel (b : Booking) : Bool :=
  b.status == BStatus.confirmed || b.status == BStatus.pending

/-- Booking.check_in from booking/models.py: when the guard holds, set status
CHECKED_IN, stamp actual_check_in_time with the current time and set the room
OCCUPIED, returning True; otherwise return False touching nothing. -/
def checkInTransition (b : Booking) (r : Room) (now : Nat) : Bool × Booking × Room :=
  if canCheckIn b then
    (true,
     { b with status := BStatus.checkedIn, actual_check_in_time := some now },
     { r with status := RStatus.occupied })
  else (false, b, r)

/-- Booking.check_out from booking/models.py: when the guard holds, set status
CHECKED_OUT, stamp actual_check_out_time and set the room AVAILABLE, returning
True; otherwise return False touching nothing. -/
def checkOutTransition (b : Booking) (r : Room) (now : Nat) : Bool × Booking × Room :=
  if canCheckOut b then
    (true,
     { b with status := BStatus.checkedOut, actual_check_out_time := some now },
     { r with status := RStatus.available })
  else (false, b, r)

/-- Cancel path from the booking_cancel view (booking/views.py lines 149-164):
when can_cancel holds, set status CANCELED and free the room only if it was
RESERVED; otherwise report an error touching nothing. -/
def cancelTransition (b : Booking) (r : Room) : Bool × Booking × Room :=
  if canCancel b then
    (true,
     { b with status := BStatus.canceled },
     if r.status == RStatus.reserved then { r with status := RStatus.available } else r)
  else (false, b, r)

/-- Modelled from the spec: RatePlan.calculate_total_rate of the rate app,
which is absent from the sources. The spec describes a rate plan as a pricing
policy producing a total rate from nights and occupancy, whose computation may
fail with any error (the caller swallows the failure); a failing computation,
for instance on an inactive plan, is the none result. -/
def RatePlanCalc : Type := ℤ → Nat → Option ℤ

/-- Final pricing fallback inside Booking.calculate_total_amount: the room's
own rate_default times nights when rate_default is truthy, else the function's
closing zero result. -/
def roomDefaultTotal (room : Room) (nights : ℤ) : ℤ :=
  if room.rate_default ≠ 0 then room.rate_default * nights else 0

/-- Room-rate part of Booking.calculate_total_amount: the room type's
price_per_night times nights when the room type is present and the price is
truthy, else the rate_default fallback. -/
def roomRateTotal (room : Room) (nights : ℤ) : ℤ :=
  match room.room_type with
  | some rt =>
    match rt.price_per_night with
    | some p => if p ≠ 0 then p * nights else roomDefaultTotal room nights
    | none => roomDefaultTotal room nights
  | none => roomDefaultTotal room nights

/-- Booking.calculate_total_amount from booking/models.py lines 190-209: for a
positive night count, first ask the supplied rate plan (any failure falls
through silently), then the room type price, then the room default rate;
zero when nights is not positive or no source resolves. -/
def calculate_total_amount (rate_plan : Option RatePlanCalc) (room : Room)
    (check_in_date check_out_date : Nat) (total_guests : Nat) : ℤ :=
  let nights := duration_nights check_in_date check_out_date
  if 0 < nights then
    match rate_plan with
    | some f =>
      match f nights total_guests with
      | some r => r
      | none => roomRateTotal room nights
    | none => roomRateTotal room nights
  else 0

/-- Validation errors raised by BookingForm.clean. -/
inductive BookingError
| dateOrder
| pastCheckIn
| availability (room_number : Nat)
| capacity (guests cap : Nat)
deriving DecidableEq

/-- BookingForm.clean from booking/forms.py lines 135-179, with the stored
bookings, the current date and the pk of the instance being edited (none on
creation) made explicit: reject checkout not after checkin, then a check-in
date before today, then an availability conflict (excluding the instance being
edited), then a guest count above a truthy room-type capacity. -/
def bookingFormClean (bookings : List Booking) (today : Nat) (room : Room)
    (check_in_date check_out_date : Nat) (adults children : Nat)
    (editing : Option Nat) : Except BookingError Unit :=
  if check_out_date ≤ check_in_date then .error .dateOrder
  else if check_in_date < today then .error .pastCheckIn
  else if findConflicts bookings room.id check_in_date check_out_date editing ≠ [] then
    .error (.availability room.room_number)
  else
    match room.room_type with
    | some rt =>
      match rt.capacity with
      | some c =>
        if c ≠ 0 ∧ adults + children > c then .error (.capacity (adults + children) c)
        else .ok ()
      | none => .ok ()
    | none => .ok ()

/-- Payment status values of a check-in, from CheckIn.PAYMENT_STATUS_CHOICES
in checkin/models.py. -/
inductive PayStatus
| pending
| partPaid
| paid
| refunded
deriving DecidableEq

namespace Gen

/-- Calendar date as year, month and day, for the check-in identifier that
renders the current date as YYYYMMDD. -/
structure Ymd where
  y : Nat
  m : Nat
  d : Nat
deriving DecidableEq

/-- Two-digit zero-padded decimal rendering, as the %m and %d strftime codes. -/
def pad2 (n : Nat) : String :=
  if n < 100 then String.mk [Nat.digitChar (n / 10), Nat.digitChar (n % 10)]
  else Nat.repr n

/-- Three-digit zero-padded decimal rendering, as the Python format code 03d. -/
def pad3 (n : Nat) : String :=
  if n < 1000 then
    String.mk [Nat.digitChar (n / 100), Nat.digitChar (n / 10 % 10), Nat.digitChar (n % 10)]
  else Nat.repr n

/-- Four-digit zero-padded decimal rendering, as the %Y strftime code. -/
def pad4 (n : Nat) : String :=
  if n < 10000 then
    String.mk [Nat.digitChar (n / 1000), Nat.digitChar (n / 100 % 10),
               Nat.digitChar (n / 10 % 10), Nat.digitChar (n % 10)]
  else Nat.repr n

/-- Date rendered with strftime format YYYYMMDD. -/
def ymdStr (t : Ymd) : String :=
  pad4 t.y ++ pad2 t.m ++ pad2 t.d

/-- Booking fields that CheckIn.save reads when defaulting missing values. -/
structure BookingRef where
  total_amount : ℤ
  check_out_date : Ymd
deriving DecidableEq

/-- Check-in row, restricted to the fields CheckIn.save in checkin/models.py
reads or writes: the identifier, the optional booking link, the calendar date
of the actual check-in datetime, the expected checkout date and the total
amount. -/
structure CheckInRow where
  check_in_id : String
  booking : Option BookingRef
  actual_date : Ymd
  expected_check_out_date : Option Ymd
  total_amount : ℤ
deriving DecidableEq

/-- Number of stored check-ins whose actual check-in datetime falls on the
given date: the count CheckIn.save bases the generated sequence number on. -/
def countOn (db : List CheckInRow) (today : Ymd) : Nat :=
  (db.filter (fun x => x.actual_date == today)).length

/-- Generated identifier: the letters CI, the current date as YYYYMMDD, and
the zero-padded successor of the same-day count. -/
def genId (db : List CheckInRow) (today : Ymd) : String :=
  "CI" ++ ymdStr today ++ pad3 (countOn db today + 1)

/-- Defaulting steps of CheckIn.save: with a linked booking, a falsy total
amount is replaced by the booking total, then a missing expected checkout date
by the booking checkout date. -/
def applyBookingDefaults (c : CheckInRow) : CheckInRow :=
  match c.booking with
  | some bk =>
    let c1 := if c.total_amount = 0 then { c with total_amount := bk.total_amount } else c
    if c1.expected_check_out_date = none then
      { c1 with expected_check_out_date := some bk.check_out_date }
    else c1
  | none => c

/-- CheckIn.save from checkin/models.py lines 117-135: generate the identifier
only when none was supplied, apply booking defaults, and persist the row;
today is the date of timezone.now(). Returns the stored rows and the saved
row. -/
def saveCheckIn (db : List CheckInRow) (today : Ymd) (c : CheckInRow) :
    List CheckInRow × CheckInRow :=
  let c1 := if c.check_in_id = "" then { c with check_in_id := genId db today } else c
  let c2 := applyBookingDefaults c1
  (db ++ [c2], c2)

end Gen

namespace Reg

/-- Day index of a minute timestamp (the date component of a datetime). -/
def dayOf (t : Nat) : Nat := t / 1440

/-- Check-in row as handled by CheckInForm and the check-in views: primary
key, optional booking link, guest, actual check-in minute timestamp, room,
expected checkout day, payments and payment status. -/
structure CheckInRec where
  pk : Nat
  booking : Option Nat
  guest : Nat
  actual_minutes : Nat
  room : Nat
  expected_check_out_day : Option Nat
  advance_payment : ℤ
  total_amount : ℤ
  payment_status : PayStatus
deriving DecidableEq

/-- CheckIn.remaining_amount from checkin/models.py: total minus advance. -/
def remaining_amount (c : CheckInRec) : ℤ :=
  c.total_amount - c.advance_payment

/-- CheckIn.payment_percentage from checkin/models.py: advance over total
times 100 when the total is positive, else zero (no division by zero). -/
def payment_percentage (c : CheckInRec) : ℚ :=
  if 0 < c.total_amount then
    (c.advance_payment : ℚ) / (c.total_amount : ℚ) * 100
  else 0

/-- Validation errors raised by CheckInForm.clean, in the order the checks
appear in checkin/forms.py lines 169-212. -/
inductive CheckinError
| missingGuestAndBooking
| guestMismatch
| futureCheckIn
| checkoutNotAfter
| advanceExceedsTotal
| sameDayConflict (room_number : Nat)
deriving DecidableEq

/-- Guest-mismatch test of CheckInForm.clean: both a booking and a guest are
present and the booking's guest differs. -/
def guestMismatch (booking : Option Booking) (guest : Option Nat) : Bool :=
  match booking, guest with
  | some bk, some g => bk.guest != g
  | _, _ => false

/-- Expected-checkout test of CheckInForm.clean: an expected checkout date is
present and is not strictly after the date component of the check-in
datetime. -/
def expectedNotAfter (actual : Nat) (expected : Option Nat) : Bool :=
  match expected with
  | some e => decide (e ≤ dayOf actual)
  | none => false

/-- Same-day conflict query of CheckInForm.clean lines 200-210: stored
check-ins on the same room whose actual check-in datetime falls on the same
calendar day, minus the record being edited when present. -/
def sameDayConflicts (existing : List CheckInRec) (room : Room) (actual : Nat)
    (editing : Option Nat) : List CheckInRec :=
  let base := existing.filter (fun x =>
    x.room == room.id && dayOf x.actual_minutes == dayOf actual)
  match editing with
  | some pk => base.filter (fun x => x.pk != pk)
  | none => base

/-- CheckInForm.clean from checkin/forms.py lines 169-212, checks in source
order: either booking or guest must be present; the guest must match the
booking's guest; the check-in datetime must not lie more than one hour after
the processing time; a present expected checkout must be strictly after the
check-in's date component; a truthy advance must not exceed a truthy total;
and the room must have no other check-in that same calendar day (excluding the
record being edited). -/
def checkInFormClean (existing : List CheckInRec) (now : Nat)
    (booking : Option Booking) (guest : Option Nat) (room : Room)
    (actual : Nat) (expected : Option Nat) (advance total : ℤ)
    (editing : Option Nat) : Except CheckinError Unit :=
  if booking = none ∧ guest = none then .error .missingGuestAndBooking
  else if guestMismatch booking guest then .error .guestMismatch
  else if now + 60 < actual then .error .futureCheckIn
  else if expectedNotAfter actual expected then .error .checkoutNotAfter
  else if advance ≠ 0 ∧ total ≠ 0 ∧ total < advance then .error .advanceExceedsTotal
  else if sameDayConflicts existing room actual editing ≠ [] then
    .error (.sameDayConflict room.room_number)
  else .ok ()

/-- Row built by form.save in checkin_create: the submitted fields, with
CheckIn.save defaulting a falsy total amount and a missing expected checkout
from the linked booking. -/
def buildRow (newPk : Nat) (booking : Option Booking) (guest : Nat)
    (actual : Nat) (room : Room) (expected : Option Nat) (advance total : ℤ)
    (ps : PayStatus) : CheckInRec :=
  { pk := newPk
    booking := booking.map (fun b => b.pk)
    guest := guest
    actual_minutes := actual
    room := room.id
    expected_check_out_day :=
      match booking, expected with
      | some bk, none => some bk.check_out_date
      | _, e => e
    advance_payment := advance
    total_amount :=
      match booking with
      | some bk => if total = 0 then bk.total_amount else total
      | none => total
    payment_status := ps }

/-- checkin_create view from checkin/views.py lines 97-112: validate through
CheckInForm.clean (no instance being edited), persist the new row, set the
referenced room OCCUPIED, and when a booking is linked set its status
CHECKED_IN; nothing is touched on validation failure. Returns the stored
rows, the updated room and the updated linked booking. -/
def checkinCreate (existing : List CheckInRec) (now : Nat)
    (booking : Option Booking) (guest : Nat) (room : Room) (actual : Nat)
    (expected : Option Nat) (advance total : ℤ) (ps : PayStatus)
    (newPk : Nat) : Except CheckinError (List CheckInRec × Room × Option Booking) :=
  match checkInFormClean existing now booking (some guest) room actual expected
      advance total none with
  | .error e => .error e
  | .ok _ =>
    .ok (existing ++ [buildRow newPk booking guest actual room expected advance total ps],
         { room with status := RStatus.occupied },
         booking.map (fun b => { b with status := BStatus.checkedIn }))

/-- checkin_update view from checkin/views.py lines 127-148: validate through
CheckInForm.clean with the edited record excluded and re-save the row; the
update path mutates neither the room nor any booking. -/
def checkinUpdate (existing : List CheckInRec) (now : Nat)
    (booking : Option Booking) (guest : Nat) (room : Room) (actual : Nat)
    (expected : Option Nat) (advance total : ℤ) (ps : PayStatus)
    (editedPk : Nat) : Except CheckinError CheckInRec :=
  match checkInFormClean existing now booking (some guest) room actual expected
      advance total (some editedPk) with
  | .error e => .error e
  | .ok _ => .ok (buildRow editedPk booking guest actual room expected advance total ps)

/-- quick_checkin view from checkin/views.py lines 151-166 with
QuickCheckInForm: a walk-in path with no booking link and no CheckInForm.clean
validation; the form only offers AVAILABLE rooms, the view stamps the actual
check-in time with now and payment status PENDING, persists, and sets the room
OCCUPIED. -/
def quickCheckin (existing : List CheckInRec) (now : Nat) (guest : Nat)
    (room : Room) (expected : Option Nat) (advance total : ℤ)
    (newPk : Nat) : Except Unit (List CheckInRec × Room) :=
  if room.status == RStatus.available then
    .ok (existing ++ [buildRow newPk none guest now room expected advance total PayStatus.pending],
         { room with status := RStatus.occupied })
  else .error ()

end Reg

/-- Strings with equal character data are equal. -/
theorem str_data_inj {a b : String} (h : a.data = b.data) : a = b := by
  cases a
  cases b
  exact congrArg String.mk h

/-- Nat.digitChar is injective on single digits. -/
theorem digitChar_inj_lt10 : ∀ a < 10, ∀ b < 10,
    Nat.digitChar a = Nat.digitChar b → a = b := by decide

/-- Three-digit zero padding is injective below 1000. -/
theorem pad3_inj {a b : Nat} (ha : a < 1000) (hb : b < 1000)
    (h : Gen.pad3 a = Gen.pad3 b) : a = b := by
  unfold Gen.pad3 at h
  rw [if_pos ha, if_pos hb] at h
  injection h with h
  simp only [List.cons.injEq, and_true] at h
  obtain ⟨h1, h2, h3⟩ := h
  have e1 := digitChar_inj_lt10 _ (by omega) _ (by omega) h1
  have e2 := digitChar_inj_lt10 _ (by omega) _ (by omega) h2
  have e3 := digitChar_inj_lt10 _ (by omega) _ (by omega) h3
  omega

/-- Appending distinct padded numbers below 1000 to a common front string
gives distinct strings. -/
theorem append_pad3_ne (s : String) {a b : Nat} (ha : a < 1000) (hb : b < 1000)
    (hab : a ≠ b) : s ++ Gen.pad3 a ≠ s ++ Gen.pad3 b := by
  intro h
  have hd : s.data ++ (Gen.pad3 a).data = s.data ++ (Gen.pad3 b).data :=
    congrArg String.data h
  have hp : (Gen.pad3 a).data = (Gen.pad3 b).data := List.append_cancel_left hd
  exact hab (pad3_inj ha hb (str_data_inj hp))

/-- Booking defaults in CheckIn.save leave the identifier untouched. -/
theorem applyBookingDefaults_id (c : Gen.CheckInRow) :
    (Gen.applyBookingDefaults c).check_in_id = c.check_in_id := by
  unfold Gen.applyBookingDefaults
  cases hb : c.booking <;> simp [hb] <;> split_ifs <;> rfl

/-- Booking defaults in CheckIn.save leave the actual check-in date
untouched. -/
theorem applyBookingDefaults_date (c : Gen.CheckInRow) :
    (Gen.applyBookingDefaults c).actual_date = c.actual_date := by
  unfold Gen.applyBookingDefaults
  cases hb : c.booking <;> simp [hb] <;> split_ifs <;> rfl

/-- Identifier of a freshly saved check-in: generated when blank, kept when
supplied. -/
theorem saveCheckIn_id (db : List Gen.CheckInRow) (today : Gen.Ymd)
    (c : Gen.CheckInRow) :
    ((Gen.saveCheckIn db today c).2).check_in_id
      = (if c.check_in_id = "" then Gen.genId db today else c.check_in_id) := by
  unfold Gen.saveCheckIn
  split_ifs with h <;> simp [applyBookingDefaults_id, h]

/-- Saving appends exactly the saved row to the store. -/
theorem saveCheckIn_db (db : List Gen.CheckInRow) (today : Gen.Ymd)
    (c : Gen.CheckInRow) :
    (Gen.saveCheckIn db today c).1 = db ++ [(Gen.saveCheckIn db today c).2] := rfl

/-- Saving preserves the actual check-in date of the row. -/
theorem saveCheckIn_date (db : List Gen.CheckInRow) (today : Gen.Ymd)
    (c : Gen.CheckInRow) :
    ((Gen.saveCheckIn db today c).2).actual_date = c.actual_date := by
  unfold Gen.saveCheckIn
  split_ifs <;> simp [applyBookingDefaults_date]

/-- Appending a same-day row increments the same-day count by one. -/
theorem countOn_append_same (db : List Gen.CheckInRow) (today : Gen.Ymd)
    (x : Gen.CheckInRow) (h : x.actual_date = today) :
    Gen.countOn (db ++ [x]) today = Gen.countOn db today + 1 := by
  simp [Gen.countOn, List.filter_append, h]

/-- Claim C1: the availability conflict query returns exactly the bookings on
the queried room whose status is CONFIRMED or CHECKED_IN and whose half-open
stay interval overlaps the queried range under the rule a_start less than
b_end and b_start less than a_end (so a booking ending exactly on the queried
start date is not a conflict and bookings in any other status never appear),
with the booking being edited excluded from the conflict set. -/
theorem conflict_query_exact (bookings : List Booking) (room : Nat)
    (check_in_date check_out_date : Nat) (exclude : Option Nat) (b : Booking) :
    b ∈ findConflicts bookings room check_in_date check_out_date exclude ↔
      b ∈ bookings ∧ b.room = room ∧
      (b.status = BStatus.confirmed ∨ b.status = BStatus.checkedIn) ∧
      b.check_in_date < check_out_date ∧ check_in_date < b.check_out_date ∧
      exclude ≠ some b.pk := by
  unfold findConflicts
  cases exclude with
  | none => simp [List.mem_filter, and_assoc]
  | some pk =>
    simp only [List.mem_filter, Bool.and_eq_true, beq_iff_eq,
      Bool.or_eq_true, decide_eq_true_eq, bne_iff_ne, ne_eq, Option.some.injEq,
      gt_iff_lt, and_assoc]
    constructor
    · rintro ⟨hm, hr, hs, h1, h2, hpk⟩
      exact ⟨hm, hr, hs, h1, h2, fun h => hpk h.symm⟩
    · rintro ⟨hm, hr, hs, h1, h2, hpk⟩
      exact ⟨hm, hr, hs, h1, h2, fun h => hpk h.symm⟩

/-- Claim C2: a lifecycle transition attempted from a non-permitted state
(check-in outside PENDING/CONFIRMED, check-out outside CHECKED_IN, cancel
outside PENDING/CONFIRMED) reports failure and mutates nothing: the booking
with its status and timestamps and the linked room with its status are
returned unchanged. -/
theorem invalid_transition_no_mutation (b : Booking) (r : Room) (now : Nat) :
    (¬ (b.status = BStatus.pending ∨ b.status = BStatus.confirmed) →
        checkInTransition b r now = (false, b, r)) ∧
    (b.status ≠ BStatus.checkedIn →
        checkOutTransition b r now = (false, b, r)) ∧
    (¬ (b.status = BStatus.pending ∨ b.status = BStatus.confirmed) →
        cancelTransition b r = (false, b, r)) := by
  refine ⟨fun h => ?_, fun h => ?_, fun h => ?_⟩
  · have hg : canCheckIn b = false := by
      cases hs : b.status <;> simp_all [canCheckIn]
    simp [checkInTransition, hg]
  · have hg : canCheckOut b = false := by
      cases hs : b.status <;> simp_all [canCheckOut]
    simp [checkOutTransition, hg]
  · have hg : canCancel b = false := by
      cases hs : b.status <;> simp_all [canCancel]
    simp [cancelTransition, hg]

/-- Witness for claim C2 at a CHECKED_OUT booking: the check-out transition
fails and returns the entities untouched. -/
theorem invalid_transition_no_mutation_witness :
    checkOutTransition
        ⟨1, 7, 1, 10, 12, 1, 0, BStatus.canceled, 1000, 0, none, none⟩
        ⟨1, 101, RStatus.available, none, 1000⟩ 5
      = (false,
         ⟨1, 7, 1, 10, 12, 1, 0, BStatus.canceled, 1000, 0, none, none⟩,
         ⟨1, 101, RStatus.available, none, 1000⟩) :=
  (invalid_transition_no_mutation _ _ 5).2.1 (by decide)

/-- Claim C3: from PENDING or CONFIRMED the check-in transition succeeds,
setting the booking status to CHECKED_IN, its actual check-in time to the
current time and the linked room to OCCUPIED; a second check-in attempt on the
resulting booking fails without further mutation. -/
theorem checkin_transition_effects (b : Booking) (r : Room) (now now2 : Nat)
    (h : b.status = BStatus.pending ∨ b.status = BStatus.confirmed) :
    checkInTransition b r now =
      (true,
       { b with status := BStatus.checkedIn, actual_check_in_time := some now },
       { r with status := RStatus.occupied }) ∧
    checkInTransition
        { b with status := BStatus.checkedIn, actual_check_in_time := some now }
        { r with status := RStatus.occupied } now2 =
      (false,
       { b with status := BStatus.checkedIn, actual_check_in_time := some now },
       { r with status := RStatus.occupied }) := by
  have hg : canCheckIn b = true := by
    rcases h with h | h <;> simp [canCheckIn, h]
  exact ⟨by simp [checkInTransition, hg], by simp [checkInTransition, canCheckIn]⟩

/-- Witness for claim C3 at a CONFIRMED booking. -/
theorem checkin_transition_effects_witness :
    checkInTransition
        ⟨1, 7, 1, 10, 12, 1, 0, BStatus.confirmed, 1000, 0, none, none⟩
        ⟨1, 101, RStatus.available, none, 1000⟩ 500
      = (true,
         ⟨1, 7, 1, 10, 12, 1, 0, BStatus.checkedIn, 1000, 0, some 500, none⟩,
         ⟨1, 101, RStatus.occupied, none, 1000⟩) :=
  (checkin_transition_effects _ _ 500 600 (Or.inr rfl)).1

/-- Claim C4: the stay total follows the priority chain of
calculate_total_amount: a supplied rate plan whose computation succeeds wins,
a failing rate-plan computation falls through silently, then a present nonzero
room-type price per night times nights, then a nonzero room default rate times
nights, and the result is zero when nights is not positive or no rate source
resolves; with no rate plan, three nights, no room-type price and default rate
1000 the total is 3000. -/
theorem pricing_priority_chain (rate_plan : Option RatePlanCalc) (room : Room)
    (ci co : Nat) (g : Nat) :
    (duration_nights ci co ≤ 0 →
        calculate_total_amount rate_plan room ci co g = 0) ∧
    (∀ f r, rate_plan = some f → f (duration_nights ci co) g = some r →
        0 < duration_nights ci co →
        calculate_total_amount rate_plan room ci co g = r) ∧
    (∀ f, rate_plan = some f → f (duration_nights ci co) g = none →
        0 < duration_nights ci co →
        calculate_total_amount rate_plan room ci co g
          = roomRateTotal room (duration_nights ci co)) ∧
    (rate_plan = none → 0 < duration_nights ci co →
        calculate_total_amount rate_plan room ci co g
          = roomRateTotal room (duration_nights ci co)) ∧
    (∀ rt p n, room.room_type = some rt → rt.price_per_night = some p → p ≠ 0 →
        roomRateTotal room n = p * n) ∧
    (∀ n, (room.room_type.bind RoomType.price_per_night = none ∨
           room.room_type.bind RoomType.price_per_night = some 0) →
        roomRateTotal room n = roomDefaultTotal room n) ∧
    (∀ n, room.rate_default ≠ 0 → roomDefaultTotal room n = room.rate_default * n) ∧
    (∀ n, room.rate_default = 0 → roomDefaultTotal room n = 0) ∧
    calculate_total_amount none ⟨0, 0, RStatus.available, none, 1000⟩ 0 3 2 = 3000 := by
  refine ⟨fun h => ?_, fun f r hf hr hn => ?_, fun f hf hr hn => ?_,
    fun hf hn => ?_, fun rt p n hrt hp hpz => ?_, fun n hch => ?_,
    fun n hd => ?_, fun n hd => ?_, by decide⟩
  · unfold calculate_total_amount
    rw [if_neg (by omega)]
  · simp [calculate_total_amount, hf, hr, hn]
  · simp [calculate_total_amount, hf, hr, hn]
  · simp [calculate_total_amount, hf, hn]
  · simp [roomRateTotal, hrt, hp, hpz]
  · unfold roomRateTotal
    rcases hrt : room.room_type with _ | rt
    · rfl
    · rw [hrt] at hch
      simp only [Option.some_bind] at hch
      rcases hp : rt.price_per_night with _ | p
      · simp [hp]
      · rw [hp] at hch
        rcases hch with hch | hch
        · exact absurd hch (by simp)
        · simp only [Option.some.injEq] at hch
          simp [hp, hch]
  · unfold roomDefaultTotal
    rw [if_pos hd]
  · unfold roomDefaultTotal
    rw [if_neg (by simp [hd])]

/-- Witness for claim C4: a successful rate-plan computation takes priority,
and the spec example of 3 nights at default rate 1000 totals 3000. -/
theorem pricing_priority_chain_witness :
    calculate_total_amount (some fun _ _ => some 555)
        ⟨0, 0, RStatus.available, none, 1000⟩ 0 3 2 = 555 ∧
    calculate_total_amount none ⟨0, 0, RStatus.available, none, 1000⟩ 0 3 2 = 3000 :=
  ⟨(pricing_priority_chain (some fun _ _ => some 555)
      ⟨0, 0, RStatus.available, none, 1000⟩ 0 3 2).2.1
      (fun _ _ => some 555) 555 rfl rfl (by decide),
   (pricing_priority_chain none ⟨0, 0, RStatus.available, none, 1000⟩ 0 3 2).2.2.2.2.2.2.2.2⟩

/-- Claim C5: a check-in saved without a supplied identifier gets the letters
CI, the current date as YYYYMMDD and a zero-padded three-digit sequence number
(the successor of the same-day count) that is unique among that day's
check-ins whenever the existing same-day identifiers carry sequence numbers up
to the count; two check-ins created on the same date receive sequential
suffixes, and a supplied identifier is never overwritten. -/
theorem checkin_id_generation (db : List Gen.CheckInRow) (today : Gen.Ymd)
    (c : Gen.CheckInRow) :
    (c.check_in_id = "" →
        ((Gen.saveCheckIn db today c).2).check_in_id
          = "CI" ++ Gen.ymdStr today ++ Gen.pad3 (Gen.countOn db today + 1)) ∧
    (c.check_in_id ≠ "" →
        ((Gen.saveCheckIn db today c).2).check_in_id = c.check_in_id) ∧
    (c.check_in_id = "" → Gen.countOn db today + 1 < 1000 →
      (∀ x ∈ db, x.actual_date = today →
          ∃ k, 1 ≤ k ∧ k ≤ Gen.countOn db today ∧
            x.check_in_id = "CI" ++ Gen.ymdStr today ++ Gen.pad3 k) →
      ∀ x ∈ db, x.actual_date = today →
        x.check_in_id ≠ ((Gen.saveCheckIn db today c).2).check_in_id) ∧
    (c.check_in_id = "" → c.actual_date = today → ∀ c2, c2.check_in_id = "" →
        ((Gen.saveCheckIn (Gen.saveCheckIn db today c).1 today c2).2).check_in_id
          = "CI" ++ Gen.ymdStr today ++ Gen.pad3 (Gen.countOn db today + 2)) := by
  refine ⟨fun h => ?_, fun h => ?_, fun h hlt hids x hx hxd => ?_,
    fun h hd c2 h2 => ?_⟩
  · rw [saveCheckIn_id, if_pos h]
    rfl
  · rw [saveCheckIn_id, if_neg h]
  · rw [saveCheckIn_id, if_pos h]
    obtain ⟨k, hk1, hk2, hkid⟩ := hids x hx hxd
    rw [hkid]
    show ("CI" ++ Gen.ymdStr today) ++ Gen.pad3 k
        ≠ ("CI" ++ Gen.ymdStr today) ++ Gen.pad3 (Gen.countOn db today + 1)
    exact append_pad3_ne _ (by omega) (by omega) (by omega)
  · rw [saveCheckIn_id, if_pos h2]
    unfold Gen.genId
    rw [saveCheckIn_db, countOn_append_same db today _ (by rw [saveCheckIn_date]; exact hd)]

/-- Witness for claim C5: on 2025-01-01 two blank-id check-ins receive the
identifiers CI20250101001 and CI20250101002. -/
theorem checkin_id_generation_witness :
    ((Gen.saveCheckIn [] ⟨2025, 1, 1⟩ ⟨"", none, ⟨2025, 1, 1⟩, none, 0⟩).2).check_in_id
      = "CI20250101001" ∧
    ((Gen.saveCheckIn (Gen.saveCheckIn [] ⟨2025, 1, 1⟩ ⟨"", none, ⟨2025, 1, 1⟩, none, 0⟩).1
        ⟨2025, 1, 1⟩ ⟨"", none, ⟨2025, 1, 1⟩, none, 0⟩).2).check_in_id
      = "CI20250101002" :=
  ⟨((checkin_id_generation [] ⟨2025, 1, 1⟩ ⟨"", none, ⟨2025, 1, 1⟩, none, 0⟩).1
      rfl).trans (by decide),
   ((checkin_id_generation [] ⟨2025, 1, 1⟩ ⟨"", none, ⟨2025, 1, 1⟩, none, 0⟩).2.2.2
      rfl rfl ⟨"", none, ⟨2025, 1, 1⟩, none, 0⟩ rfl).trans (by decide)⟩

/-- Counterexample to claim C6: editing an existing booking (instance pk 1)
whose check-in date 5 lies before today 10 fails with the past-date error,
although the claim says the past-date restriction applies at creation only and
such an edit does not fail with a date-range error. -/
theorem past_checkin_edit_counterexample :
    bookingFormClean
        [⟨1, 7, 1, 5, 15, 1, 0, BStatus.confirmed, 1000, 0, none, none⟩]
        10 ⟨1, 101, RStatus.available, none, 1000⟩ 5 15 1 0 (some 1)
      = .error BookingError.pastCheckIn := rfl

/-- Claim C6 (amended): a submission whose check-in date lies before the
current date fails with the past-date error at creation and update alike (the
instance being edited is only excluded from the availability query, not from
the date checks), and the checkout-after-checkin rule likewise applies to
both. -/
theorem past_checkin_always_rejected (bookings : List Booking) (today : Nat)
    (room : Room) (check_in_date check_out_date : Nat) (adults children : Nat)
    (editing : Option Nat) :
    (check_out_date ≤ check_in_date →
        bookingFormClean bookings today room check_in_date check_out_date
          adults children editing = .error .dateOrder) ∧
    (check_in_date < check_out_date → check_in_date < today →
        bookingFormClean bookings today room check_in_date check_out_date
          adults children editing = .error .pastCheckIn) := by
  constructor
  · intro h
    unfold bookingFormClean
    rw [if_pos h]
  · intro h1 h2
    unfold bookingFormClean
    rw [if_neg (by omega), if_pos h2]

/-- Witness for claim C6 (amended) at a fresh creation with a past check-in
date. -/
theorem past_checkin_always_rejected_witness :
    bookingFormClean [] 10 ⟨1, 101, RStatus.available, none, 1000⟩ 5 15 1 0 none
      = .error BookingError.pastCheckIn :=
  (past_checkin_always_rejected [] 10 ⟨1, 101, RStatus.available, none, 1000⟩
    5 15 1 0 none).2 (by decide) (by decide)

/-- Successful validation forces the same-day conflict set empty and the
advance-over-total condition (as the code tests it) false. -/
theorem clean_ok_conditions (existing : List Reg.CheckInRec) (now : Nat)
    (booking : Option Booking) (guest : Option Nat) (room : Room)
    (actual : Nat) (expected : Option Nat) (advance total : ℤ)
    (editing : Option Nat)
    (h : Reg.checkInFormClean existing now booking guest room actual expected
        advance total editing = .ok ()) :
    Reg.sameDayConflicts existing room actual editing = [] ∧
    ¬ (advance ≠ 0 ∧ total ≠ 0 ∧ total < advance) := by
  unfold Reg.checkInFormClean at h
  split_ifs at h with h1 h2 h3 h4 h5 h6 <;> simp_all

/-- Membership in the same-day conflict query. -/
theorem mem_sameDayConflicts {existing : List Reg.CheckInRec} {room : Room}
    {actual : Nat} {editing : Option Nat} {x : Reg.CheckInRec}
    (hx : x ∈ existing) (hr : x.room = room.id)
    (hd : Reg.dayOf x.actual_minutes = Reg.dayOf actual)
    (he : editing ≠ some x.pk) :
    x ∈ Reg.sameDayConflicts existing room actual editing := by
  unfold Reg.sameDayConflicts
  cases editing with
  | none => simp [List.mem_filter, hx, hr, hd]
  | some pk =>
    simp only [List.mem_filter, Bool.and_eq_true, beq_iff_eq, bne_iff_ne, ne_eq]
    exact ⟨⟨hx, by simp [hr, hd]⟩, fun hh => he (by rw [hh])⟩

/-- Claim C7: when another stored check-in (other than the record being
edited) occupies the same room on the same calendar day, validation never
succeeds; when every earlier check passes it fails precisely with the same-day
conflict error naming the room, and neither the creation nor the update path
persists a check-in. -/
theorem same_day_conflict_rejected (existing : List Reg.CheckInRec) (now : Nat)
    (booking : Option Booking) (guest : Option Nat) (room : Room)
    (actual : Nat) (expected : Option Nat) (advance total : ℤ)
    (editing : Option Nat) (x : Reg.CheckInRec)
    (hx : x ∈ existing) (hr : x.room = room.id)
    (hd : Reg.dayOf x.actual_minutes = Reg.dayOf actual)
    (he : editing ≠ some x.pk) :
    Reg.checkInFormClean existing now booking guest room actual expected
        advance total editing ≠ .ok () ∧
    (¬ (booking = none ∧ guest = none) →
      Reg.guestMismatch booking guest = false →
      actual ≤ now + 60 →
      Reg.expectedNotAfter actual expected = false →
      ¬ (advance ≠ 0 ∧ total ≠ 0 ∧ total < advance) →
      Reg.checkInFormClean existing now booking guest room actual expected
          advance total editing
        = .error (.sameDayConflict room.room_number)) ∧
    (∀ g ps newPk res,
      Reg.checkinCreate existing now booking g room actual expected advance
          total ps newPk ≠ .ok res) ∧
    (∀ g ps e res, e ≠ x.pk →
      Reg.checkinUpdate existing now booking g room actual expected advance
          total ps e ≠ .ok res) := by
  refine ⟨fun hok => ?_, fun hng hgm hfut hexp hadv => ?_,
    fun g ps newPk res hok => ?_, fun g ps e res hne hok => ?_⟩
  · have hm := mem_sameDayConflicts hx hr hd he
    rw [(clean_ok_conditions _ _ _ _ _ _ _ _ _ _ hok).1] at hm
    simp at hm
  · unfold Reg.checkInFormClean
    rw [if_neg hng, if_neg (by simp [hgm]), if_neg (by omega),
      if_neg (by simp [hexp]), if_neg hadv,
      if_pos (List.ne_nil_of_mem (mem_sameDayConflicts hx hr hd he))]
  · unfold Reg.checkinCreate at hok
    cases hcl : Reg.checkInFormClean existing now booking (some g) room actual
        expected advance total none with
    | error err => rw [hcl] at hok; exact absurd hok (by simp)
    | ok u =>
      cases u
      have hm := @mem_sameDayConflicts existing room actual none x hx hr hd
        (fun hh => by cases hh)
      rw [(clean_ok_conditions _ _ _ _ _ _ _ _ _ _ hcl).1] at hm
      simp at hm
  · unfold Reg.checkinUpdate at hok
    cases hcl : Reg.checkInFormClean existing now booking (some g) room actual
        expected advance total (some e) with
    | error err => rw [hcl] at hok; exact absurd hok (by simp)
    | ok u =>
      cases u
      have hm := @mem_sameDayConflicts existing room actual (some e) x hx hr hd
        (fun hh => hne (by injection hh))
      rw [(clean_ok_conditions _ _ _ _ _ _ _ _ _ _ hcl).1] at hm
      simp at hm

/-- Witness for claim C7: a second check-in on room 1 on day 2 is rejected
with the same-day conflict error naming room number 101. -/
theorem same_day_conflict_rejected_witness :
    Reg.checkInFormClean [⟨5, none, 7, 2880, 1, none, 0, 100, PayStatus.pending⟩]
        2900 none (some 7) ⟨1, 101, RStatus.available, none, 1000⟩ 2900 none 0 100 none
      = .error (.sameDayConflict 101) :=
  (same_day_conflict_rejected
      [⟨5, none, 7, 2880, 1, none, 0, 100, PayStatus.pending⟩]
      2900 none (some 7) ⟨1, 101, RStatus.available, none, 1000⟩ 2900 none 0 100 none
      ⟨5, none, 7, 2880, 1, none, 0, 100, PayStatus.pending⟩
      (by decide) rfl rfl (by decide)).2.1
    (by decide) rfl (by decide) rfl (by decide)

/-- Counterexample to claim C8: with a zero total amount and an advance
payment of 50 the advance strictly exceeds the total, yet validation succeeds
and the creation path persists the check-in, because the code only compares
the amounts when both are truthy (nonzero). -/
theorem advance_over_total_accepted_counterexample :
    Reg.checkInFormClean [] 1000 none (some 7)
        ⟨1, 101, RStatus.available, none, 1000⟩ 1000 (some 10) 50 0 none
      = .ok () ∧
    Reg.checkinCreate [] 1000 none 7 ⟨1, 101, RStatus.available, none, 1000⟩
        1000 (some 10) 50 0 PayStatus.pending 1
      = .ok ([⟨1, none, 7, 1000, 1, some 10, 50, 0, PayStatus.pending⟩],
             ⟨1, 101, RStatus.occupied, none, 1000⟩, none) ∧
    (0 : ℤ) < 50 :=
  ⟨rfl, rfl, by decide⟩

/-- Claim C8 (amended): the advance-over-total rule fires only when both
amounts are truthy: whenever the advance and the total are both nonzero and
the advance exceeds the total, validation never succeeds, failing precisely
with the payment-over-advance error once the earlier checks pass, and the
creation path persists nothing; a zero total exempts the comparison. A guest
differing from the linked booking's guest always fails with the mismatch
error. -/
theorem advance_payment_validation (existing : List Reg.CheckInRec) (now : Nat)
    (booking : Option Booking) (guest : Option Nat) (room : Room)
    (actual : Nat) (expected : Option Nat) (advance total : ℤ)
    (editing : Option Nat) :
    ((advance ≠ 0 ∧ total ≠ 0 ∧ total < advance) →
        Reg.checkInFormClean existing now booking guest room actual expected
          advance total editing ≠ .ok ()) ∧
    ((advance ≠ 0 ∧ total ≠ 0 ∧ total < advance) →
      ¬ (booking = none ∧ guest = none) →
      Reg.guestMismatch booking guest = false →
      actual ≤ now + 60 →
      Reg.expectedNotAfter actual expected = false →
      Reg.checkInFormClean existing now booking guest room actual expected
          advance total editing = .error .advanceExceedsTotal) ∧
    (∀ bk g, booking = some bk → guest = some g → bk.guest ≠ g →
      Reg.checkInFormClean existing now booking guest room actual expected
          advance total editing = .error .guestMismatch) ∧
    ((advance ≠ 0 ∧ total ≠ 0 ∧ total < advance) → ∀ g ps newPk res,
      Reg.checkinCreate existing now booking g room actual expected advance
          total ps newPk ≠ .ok res) := by
  refine ⟨fun hcond hok => ?_, fun hcond hng hgm hfut hexp => ?_,
    fun bk g hb hg hne => ?_, fun hcond g ps newPk res hok => ?_⟩
  · exact (clean_ok_conditions _ _ _ _ _ _ _ _ _ _ hok).2 hcond
  · unfold Reg.checkInFormClean
    rw [if_neg hng, if_neg (by simp [hgm]), if_neg (by omega),
      if_neg (by simp [hexp]), if_pos hcond]
  · unfold Reg.checkInFormClean
    rw [if_neg (by simp [hb]),
      if_pos (show Reg.guestMismatch booking guest = true by
        simp [Reg.guestMismatch, hb, hg, hne])]
  · unfold Reg.checkinCreate at hok
    cases hcl : Reg.checkInFormClean existing now booking (some g) room actual
        expected advance total none with
    | error err => rw [hcl] at hok; exact absurd hok (by simp)
    | ok u =>
      cases u
      exact (clean_ok_conditions _ _ _ _ _ _ _ _ _ _ hcl).2 hcond

/-- Witness for claim C8 (amended): a guest differing from the linked
booking's guest is rejected with the mismatch error. -/
theorem advance_payment_validation_witness :
    Reg.checkInFormClean [] 100
        (some ⟨3, 7, 1, 10, 12, 1, 0, BStatus.confirmed, 5000, 0, none, none⟩)
        (some 8) ⟨1, 101, RStatus.available, none, 1000⟩ 100 none 0 0 none
      = .error .guestMismatch :=
  (advance_payment_validation [] 100
      (some ⟨3, 7, 1, 10, 12, 1, 0, BStatus.confirmed, 5000, 0, none, none⟩)
      (some 8) ⟨1, 101, RStatus.available, none, 1000⟩ 100 none 0 0 none).2.2.1
    ⟨3, 7, 1, 10, 12, 1, 0, BStatus.confirmed, 5000, 0, none, none⟩ 8
    rfl rfl (by decide)

/-- Claim C9: for every check-in the remaining amount is the total minus the
advance, and the payment percentage is advance over total times 100 when the
total is positive and zero when the total is zero, so the percentage never
divides by zero. -/
theorem payment_derived_values (c : Reg.CheckInRec) :
    Reg.remaining_amount c = c.total_amount - c.advance_payment ∧
    (0 < c.total_amount →
        Reg.payment_percentage c
          = (c.advance_payment : ℚ) / (c.total_amount : ℚ) * 100) ∧
    (c.total_amount = 0 → Reg.payment_percentage c = 0) := by
  refine ⟨rfl, fun h => ?_, fun h => ?_⟩
  · unfold Reg.payment_percentage
    rw [if_pos h]
  · unfold Reg.payment_percentage
    rw [if_neg (by omega)]

/-- Witness for claim C9 at a check-in with total amount zero. -/
theorem payment_derived_values_witness :
    Reg.payment_percentage ⟨1, none, 7, 0, 1, none, 5, 0, PayStatus.pending⟩ = 0 :=
  (payment_derived_values ⟨1, none, 7, 0, 1, none, 5, 0, PayStatus.pending⟩).2.2 rfl

/-- Claim C10: every successful check-in creation sets the referenced room's
status to OCCUPIED while leaving its other fields alone, also on the walk-in
quick path with no booking; a linked booking additionally gets status
CHECKED_IN with every other field, in particular actual_check_in_time, left
unmodified. -/
theorem checkin_creation_effects (existing : List Reg.CheckInRec) (now : Nat)
    (booking : Option Booking) (guest : Nat) (room : Room) (actual : Nat)
    (expected : Option Nat) (advance total : ℤ) (ps : PayStatus)
    (newPk : Nat) :
    (∀ db1 r1 ob1,
      Reg.checkinCreate existing now booking guest room actual expected
          advance total ps newPk = .ok (db1, r1, ob1) →
      r1 = { room with status := RStatus.occupied } ∧
      (booking = none → ob1 = none) ∧
      (∀ bk, booking = some bk →
          ob1 = some { bk with status := BStatus.checkedIn })) ∧
    (∀ bk : Booking,
      ({ bk with status := BStatus.checkedIn } : Booking).actual_check_in_time
        = bk.actual_check_in_time) ∧
    (∀ db1 r1,
      Reg.quickCheckin existing now guest room expected advance total newPk
          = .ok (db1, r1) →
      r1 = { room with status := RStatus.occupied } ∧
      db1 = existing
        ++ [Reg.buildRow newPk none guest now room expected advance total
              PayStatus.pending]) := by
  refine ⟨fun db1 r1 ob1 h => ?_, fun bk => rfl, fun db1 r1 h => ?_⟩
  · unfold Reg.checkinCreate at h
    cases hcl : Reg.checkInFormClean existing now booking (some guest) room
        actual expected advance total none with
    | error err => rw [hcl] at h; exact absurd h (by simp)
    | ok u =>
      cases u
      rw [hcl] at h
      simp only [Except.ok.injEq, Prod.mk.injEq] at h
      obtain ⟨hdb, hr, hob⟩ := h
      refine ⟨hr.symm, fun hb => ?_, fun bk hb => ?_⟩
      · rw [← hob, hb]
        rfl
      · rw [← hob, hb]
        rfl
  · unfold Reg.quickCheckin at h
    split_ifs at h with hav
    simp only [Except.ok.injEq, Prod.mk.injEq] at h
    exact ⟨h.2.symm, h.1.symm⟩

/-- Witness for claim C10 at a concrete successful creation linked to a
CONFIRMED booking: the returned booking is the original with only its status
advanced to CHECKED_IN. -/
theorem checkin_creation_effects_witness :
    (some (⟨3, 7, 1, 10, 12, 1, 0, BStatus.checkedIn, 5000, 0, none, none⟩ : Booking))
      = some { (⟨3, 7, 1, 10, 12, 1, 0, BStatus.confirmed, 5000, 0, none, none⟩ : Booking)
          with status := BStatus.checkedIn } :=
  ((checkin_creation_effects [] 100
      (some ⟨3, 7, 1, 10, 12, 1, 0, BStatus.confirmed, 5000, 0, none, none⟩)
      7 ⟨1, 101, RStatus.available, none, 1000⟩ 100 none 0 0 PayStatus.pending 9).1
    [⟨9, some 3, 7, 100, 1, some 12, 0, 5000, PayStatus.pending⟩]
    ⟨1, 101, RStatus.occupied, none, 1000⟩
    (some ⟨3, 7, 1, 10, 12, 1, 0, BStatus.checkedIn, 5000, 0, none, none⟩)
    rfl).2.2
    ⟨3, 7, 1, 10, 12, 1, 0, BStatus.confirmed, 5000, 0, none, none⟩ rfl

end Hotel
